import Mathlib

/-!
Shallow embedding of `src/flowcell_manifold/part2.py`.

The Python module defines a six-field dataclass `Part2Spec`, validated by a
fail-fast chain of assertions in `__post_init__`, and a builder `make_part2`
that issues a fixed sequence of calls into the (opaque) build123d geometry
kernel: fuse a box into an empty part, cut a central cylinder, chamfer the
lowest-Z edge group, fillet the highest-Z edge group.

Python floats are modelled by the rationals `ℚ`; the code only compares
field values (and halves `hole_diameter`), so every comparison performed by
the source is exact on the literals involved.  The geometry kernel is
opaque to the source, so the builder is embedded parametrically over an
abstract kernel interface; a free term-algebra instance makes the builder
executable for concrete evaluation.
-/

namespace FlowcellManifold

/-- The six numeric fields of the Python dataclass `Part2Spec`, with the
default values given in the source. -/
structure Part2Spec where
  length : ℚ := 80
  width : ℚ := 60
  thickness : ℚ := 10
  hole_diameter : ℚ := 22
  chamfer_distance : ℚ := 2
  fillet_radius : ℚ := 5
deriving Repr, DecidableEq

/-- The assertion chain of `Part2Spec.__post_init__`, in source order, with
the source's assertion messages.  A Python `assert cond, msg` raises
`AssertionError(msg)` when `cond` is false and the following assertions are
never reached; this is modelled by nested conditionals returning the first
failing message. -/
def Part2Spec.validate (s : Part2Spec) : Except String Unit :=
  if 0 < s.length then
    if 0 < s.width then
      if 0 < s.thickness then
        if 0 < s.hole_diameter ∧ s.hole_diameter < min s.length s.width then
          if 0 ≤ s.chamfer_distance then
            if 0 ≤ s.fillet_radius then
              Except.ok ()
            else Except.error "fillet_radius must be non-negative"
          else Except.error "chamfer_distance must be non-negative"
        else Except.error
          "hole_diameter must be positive and smaller than plate dimensions"
      else Except.error "thickness must be positive"
    else Except.error "width must be positive"
  else Except.error "length must be positive"

/-- Constructing a `Part2Spec`: the dataclass `__init__` stores the six
arguments and `__post_init__` validates them; on assertion failure no
record is produced. -/
def Part2Spec.create (l w t h c f : ℚ) : Except String Part2Spec :=
  let s : Part2Spec := ⟨l, w, t, h, c, f⟩
  s.validate.map (fun _ => s)

/-- The conjunction of the six field constraints asserted by
`__post_init__`. -/
def Part2Spec.Valid (s : Part2Spec) : Prop :=
  0 < s.length ∧ 0 < s.width ∧ 0 < s.thickness ∧
    (0 < s.hole_diameter ∧ s.hole_diameter < min s.length s.width) ∧
    0 ≤ s.chamfer_distance ∧ 0 ≤ s.fillet_radius

instance (s : Part2Spec) : Decidable s.Valid := by
  unfold Part2Spec.Valid
  infer_instance

instance (α : Type) (l : List α) : Decidable (l = []) :=
  match l with
  | [] => Decidable.isTrue rfl
  | _ :: _ => Decidable.isFalse (by simp)

/-- The geometry-kernel operations `make_part2` issues, as an abstract
interface: the source treats the build123d kernel as opaque, so the
builder is embedded parametrically over any implementation.  `S` is the
kernel's solid type (`bd.Part` / `bd.Compound`), `E` its edge type.
`edgesGroupByZ s` models `s.edges().group_by(bd.Axis.Z)`: the edges of `s`
partitioned into groups by their Z coordinate, listed in ascending Z
order (so index `0` is the lowest-Z group and index `-1` the highest-Z
group).  `chamfer es d` and `fillet es r` model `bd.chamfer(es, length=d)`
and `bd.fillet(es, radius=r)`, which return a new solid derived from the
solid owning the edges `es`. -/
structure Kernel (S E : Type) where
  emptyPart : S
  box : ℚ → ℚ → ℚ → S
  cylinder : ℚ → ℚ → S
  fuse : S → S → S
  cut : S → S → S
  edgesGroupByZ : S → List (List E)
  chamfer : List E → ℚ → S
  fillet : List E → ℚ → S

/-- The builder `make_part2`, statement by statement:

* `p = bd.Part(None)` — the empty part;
* `p += bd.Box(spec.length, spec.width, spec.thickness)` — fuse;
* `p -= bd.Cylinder(radius=spec.hole_diameter / 2, height=spec.thickness)` — cut;
* `bottom_edges = p.edges().group_by(bd.Axis.Z)[0]`; a Python index on an
  empty group list raises `IndexError`, modelled by `none`;
* `if spec.chamfer_distance > 0 and bottom_edges:` (a `ShapeList` is truthy
  iff non-empty) `p = bd.chamfer(bottom_edges, length=spec.chamfer_distance)`;
* `top_edges = p.edges().group_by(bd.Axis.Z)[-1]` — the last group, on the
  possibly-chamfered `p`;
* `if spec.fillet_radius > 0 and top_edges:`
  `p = bd.fillet(top_edges, radius=spec.fillet_radius)`;
* `return p`. -/
def make_part2 {S E : Type} (K : Kernel S E) (spec : Part2Spec) : Option S :=
  let p := K.emptyPart
  let p := K.fuse p (K.box spec.length spec.width spec.thickness)
  let p := K.cut p (K.cylinder (spec.hole_diameter / 2) spec.thickness)
  match (K.edgesGroupByZ p).head? with
  | none => none
  | some bottom_edges =>
    let p :=
      if 0 < spec.chamfer_distance ∧ bottom_edges ≠ [] then
        K.chamfer bottom_edges spec.chamfer_distance
      else p
    match (K.edgesGroupByZ p).getLast? with
    | none => none
    | some top_edges =>
      let p :=
        if 0 < spec.fillet_radius ∧ top_edges ≠ [] then
          K.fillet top_edges spec.fillet_radius
        else p
      some p

/-- The builder again, but threading the `spec` argument through as
explicit state and returning it alongside the solid, so that an
assignment to a spec field anywhere in the body would be visible in the
second component.  The source only ever reads `spec` fields, so every
exit returns the state unchanged. -/
def make_part2F {S E : Type} (K : Kernel S E) (spec : Part2Spec) :
    Option S × Part2Spec :=
  let p := K.emptyPart
  let p := K.fuse p (K.box spec.length spec.width spec.thickness)
  let p := K.cut p (K.cylinder (spec.hole_diameter / 2) spec.thickness)
  match (K.edgesGroupByZ p).head? with
  | none => (none, spec)
  | some bottom_edges =>
    let p :=
      if 0 < spec.chamfer_distance ∧ bottom_edges ≠ [] then
        K.chamfer bottom_edges spec.chamfer_distance
      else p
    match (K.edgesGroupByZ p).getLast? with
    | none => (none, spec)
    | some top_edges =>
      let p :=
        if 0 < spec.fillet_radius ∧ top_edges ≠ [] then
          K.fillet top_edges spec.fillet_radius
        else p
      (some p, spec)

/-- The pipeline exactly as the claim narrates it (spec wording, for
comparison with `make_part2`): start from an empty solid, union with the
centered box, subtract the coaxial cylinder of radius `hole_diameter / 2`
and height `thickness`, chamfer the minimum-Z edge group when
`chamfer_distance > 0` and that group is non-empty, then fillet the
maximum-Z edge group recomputed on the possibly-chamfered solid when
`fillet_radius > 0` and that group is non-empty, and return the result.
Edge groups are listed in ascending Z order, so the minimum-Z group is
the first and the maximum-Z group the last. -/
def builderSequence {S E : Type} (K : Kernel S E) (spec : Part2Spec) :
    Option S :=
  let base := K.fuse K.emptyPart (K.box spec.length spec.width spec.thickness)
  let holed := K.cut base (K.cylinder (spec.hole_diameter / 2) spec.thickness)
  (K.edgesGroupByZ holed).head?.bind (fun bottomGroup =>
    let chamfered :=
      if 0 < spec.chamfer_distance ∧ bottomGroup ≠ [] then
        K.chamfer bottomGroup spec.chamfer_distance
      else holed
    (K.edgesGroupByZ chamfered).getLast?.bind (fun topGroup =>
      some (if 0 < spec.fillet_radius ∧ topGroup ≠ [] then
        K.fillet topGroup spec.fillet_radius
      else chamfered)))

/-- The pipeline with the chamfer step (step 4 of the spec: select the
minimum-Z edge group and chamfer it) omitted entirely — spec wording, for
comparison with `make_part2` at `chamfer_distance = 0`. -/
def pipelineWithoutChamfer {S E : Type} (K : Kernel S E) (spec : Part2Spec) :
    Option S :=
  let p := K.fuse K.emptyPart (K.box spec.length spec.width spec.thickness)
  let p := K.cut p (K.cylinder (spec.hole_diameter / 2) spec.thickness)
  match (K.edgesGroupByZ p).getLast? with
  | none => none
  | some top_edges =>
    some (if 0 < spec.fillet_radius ∧ top_edges ≠ [] then
      K.fillet top_edges spec.fillet_radius
    else p)

/-- The pipeline with the fillet step (step 5 of the spec: select the
maximum-Z edge group and fillet it) omitted entirely — spec wording, for
comparison with `make_part2` at `fillet_radius = 0`. -/
def pipelineWithoutFillet {S E : Type} (K : Kernel S E) (spec : Part2Spec) :
    Option S :=
  let p := K.fuse K.emptyPart (K.box spec.length spec.width spec.thickness)
  let p := K.cut p (K.cylinder (spec.hole_diameter / 2) spec.thickness)
  match (K.edgesGroupByZ p).head? with
  | none => none
  | some bottom_edges =>
    some (if 0 < spec.chamfer_distance ∧ bottom_edges ≠ [] then
      K.chamfer bottom_edges spec.chamfer_distance
    else p)

/-- The script's build flow (`spec = Part2Spec(...)` followed by
`part2 = make_part2(spec)`): validation runs first, and the builder — the
only code issuing kernel calls — is applied only to a successfully
constructed spec.  An assertion failure therefore yields `Except.error`
with no solid and no kernel operation invoked. -/
def buildPart2 {S E : Type} (K : Kernel S E) (l w t h c f : ℚ) :
    Except String (Option S) :=
  (Part2Spec.create l w t h c f).map (make_part2 K)

/-- Free term algebra over the kernel interface: each operation is a
constructor, so a built solid is exactly the trace of the constructive
kernel calls that produced it.  Edges are labelled by naturals. -/
inductive FSolid where
  | emptyPart : FSolid
  | box : ℚ → ℚ → ℚ → FSolid
  | cylinder : ℚ → ℚ → FSolid
  | fuse : FSolid → FSolid → FSolid
  | cut : FSolid → FSolid → FSolid
  | chamfer : List Nat → ℚ → FSolid
  | fillet : List Nat → ℚ → FSolid
deriving Repr, DecidableEq

/-- A concrete kernel instance over the free term algebra, used to
evaluate the builder on concrete specs.  Every solid reports two
non-empty edge groups (a bottom group and a top group), as the real
kernel does for the plate geometry at hand. -/
def freeKernel : Kernel FSolid Nat where
  emptyPart := FSolid.emptyPart
  box := FSolid.box
  cylinder := FSolid.cylinder
  fuse := FSolid.fuse
  cut := FSolid.cut
  edgesGroupByZ := fun _ => [[0], [1]]
  chamfer := FSolid.chamfer
  fillet := FSolid.fillet

/-- A validation error message `m` names a violated constraint: `m` is the
assertion message of one of the six fields and that field's constraint
indeed fails on the given inputs. -/
def violatedNamed (l w t h c f : ℚ) (m : String) : Prop :=
  (m = "length must be positive" ∧ ¬ 0 < l) ∨
  (m = "width must be positive" ∧ ¬ 0 < w) ∨
  (m = "thickness must be positive" ∧ ¬ 0 < t) ∨
  (m = "hole_diameter must be positive and smaller than plate dimensions" ∧
    ¬ (0 < h ∧ h < min l w)) ∨
  (m = "chamfer_distance must be non-negative" ∧ ¬ 0 ≤ c) ∨
  (m = "fillet_radius must be non-negative" ∧ ¬ 0 ≤ f)

/-- Successful construction characterised: `create` returns `ok s` exactly
when the six constraints hold of the inputs and `s` carries those inputs. -/
theorem create_ok_iff (l w t h c f : ℚ) (s : Part2Spec) :
    Part2Spec.create l w t h c f = Except.ok s ↔
      Part2Spec.Valid ⟨l, w, t, h, c, f⟩ ∧ s = ⟨l, w, t, h, c, f⟩ := by
  unfold Part2Spec.create Part2Spec.validate Part2Spec.Valid
  dsimp only
  split_ifs with h1 h2 h3 h4 h5 h6 <;>
    simp_all [Except.map, eq_comm]

/-- The framed builder returns its spec state unchanged on every path. -/
theorem make_part2F_snd {S E : Type} (K : Kernel S E) (spec : Part2Spec) :
    (make_part2F K spec).2 = spec := by
  unfold make_part2F
  dsimp only
  repeat' split
  all_goals rfl

/-- The framed builder computes the same solid as `make_part2`. -/
theorem make_part2F_fst {S E : Type} (K : Kernel S E) (spec : Part2Spec) :
    (make_part2F K spec).1 = make_part2 K spec := by
  unfold make_part2F make_part2
  dsimp only
  repeat' split
  all_goals rfl

/-- The free kernel's edge-group query always returns two non-empty
groups. -/
theorem freeKernel_groups_ne (s : FSolid) :
    freeKernel.edgesGroupByZ s ≠ [] := by
  simp [freeKernel]

/-- Claim C1: spec construction validates the six fields in the fixed
order length positive, width positive, thickness positive,
`0 < hole_diameter < min(length, width)`, chamfer_distance non-negative,
fillet_radius non-negative; whenever a constraint is violated and all the
earlier constraints in that order hold, construction fails with exactly
that constraint's error, irrespective of the later fields — so no later
constraint is checked after the first failure. -/
theorem claim_C1_validation_order (l w t h c f : ℚ) :
    (¬ 0 < l →
      Part2Spec.create l w t h c f =
        Except.error "length must be positive") ∧
    (0 < l → ¬ 0 < w →
      Part2Spec.create l w t h c f =
        Except.error "width must be positive") ∧
    (0 < l → 0 < w → ¬ 0 < t →
      Part2Spec.create l w t h c f =
        Except.error "thickness must be positive") ∧
    (0 < l → 0 < w → 0 < t → ¬ (0 < h ∧ h < min l w) →
      Part2Spec.create l w t h c f = Except.error
        "hole_diameter must be positive and smaller than plate dimensions") ∧
    (0 < l → 0 < w → 0 < t → 0 < h ∧ h < min l w → ¬ 0 ≤ c →
      Part2Spec.create l w t h c f =
        Except.error "chamfer_distance must be non-negative") ∧
    (0 < l → 0 < w → 0 < t → 0 < h ∧ h < min l w → 0 ≤ c → ¬ 0 ≤ f →
      Part2Spec.create l w t h c f =
        Except.error "fillet_radius must be non-negative") := by
  refine ⟨?_, ?_, ?_, ?_, ?_, ?_⟩ <;>
    · intros
      unfold Part2Spec.create Part2Spec.validate
      dsimp only
      split_ifs <;> first | rfl | tauto

/-- Witness for C1 at a concrete input: with a non-positive length and a
hole diameter that also violates its own constraint, the error reported
is the length error, the first in the order. -/
theorem claim_C1_validation_order_witness :
    ¬ 0 < (-1 : ℚ) ∧
      Part2Spec.create (-1) 60 10 100 2 5 =
        Except.error "length must be positive" :=
  ⟨by decide, (claim_C1_validation_order (-1) 60 10 100 2 5).1 (by decide)⟩

/-- Claim C2: every successfully constructed `Part2Spec` satisfies all six
field constraints, and the only later operation that touches a spec — the
builder — returns its spec state unchanged, so the constraints hold for
the lifetime of the record. -/
theorem claim_C2_invariant (l w t h c f : ℚ) (s : Part2Spec)
    (hok : Part2Spec.create l w t h c f = Except.ok s) :
    s.Valid ∧ ∀ (S E : Type) (K : Kernel S E),
      (make_part2F K s).2 = s ∧ ((make_part2F K s).2).Valid := by
  obtain ⟨hv, rfl⟩ := (create_ok_iff l w t h c f s).mp hok
  refine ⟨hv, fun S E K => ⟨make_part2F_snd K _, ?_⟩⟩
  rw [make_part2F_snd]
  exact hv

/-- Witness for C2 at the default field values. -/
theorem claim_C2_invariant_witness :
    Part2Spec.create 80 60 10 22 2 5 = Except.ok ({} : Part2Spec) ∧
      Part2Spec.Valid ({} : Part2Spec) ∧
      (make_part2F freeKernel ({} : Part2Spec)).2 = ({} : Part2Spec) :=
  ⟨rfl, (claim_C2_invariant 80 60 10 22 2 5 {} rfl).1,
    ((claim_C2_invariant 80 60 10 22 2 5 {} rfl).2 FSolid Nat freeKernel).1⟩

/-- Claim C3: for every kernel and every valid spec, the builder computes
exactly the claimed sequence — empty solid, union with the box, subtract
the coaxial cylinder, guarded chamfer of the minimum-Z edge group,
guarded fillet of the maximum-Z edge group recomputed on the
possibly-chamfered solid. -/
theorem claim_C3_builder_sequence {S E : Type} (K : Kernel S E)
    (spec : Part2Spec) (_hv : spec.Valid) :
    make_part2 K spec = builderSequence K spec := by
  unfold make_part2 builderSequence
  dsimp only
  cases hgs : K.edgesGroupByZ
      (K.cut (K.fuse K.emptyPart
          (K.box spec.length spec.width spec.thickness))
        (K.cylinder (spec.hole_diameter / 2) spec.thickness)) with
  | nil => rfl
  | cons a as =>
    simp only [List.head?_cons, Option.some_bind]
    cases hys : (K.edgesGroupByZ
        (if 0 < spec.chamfer_distance ∧ a ≠ [] then
          K.chamfer a spec.chamfer_distance
        else
          K.cut (K.fuse K.emptyPart
              (K.box spec.length spec.width spec.thickness))
            (K.cylinder (spec.hole_diameter / 2) spec.thickness))).getLast?
        with
    | none => rfl
    | some y => rfl

/-- Witness for C3: the default spec is valid and the builder agrees with
the narrated sequence on it, over the free kernel. -/
theorem claim_C3_builder_sequence_witness :
    Part2Spec.Valid ({} : Part2Spec) ∧
      make_part2 freeKernel ({} : Part2Spec) =
        builderSequence freeKernel ({} : Part2Spec) :=
  ⟨by decide, claim_C3_builder_sequence freeKernel {} (by decide)⟩

/-- Claim C4: for a kernel whose edge-group query always returns at least
one group (as the real kernel does on the solids built here) and every
valid spec, a zero chamfer distance makes the builder agree with the
pipeline whose chamfer step is omitted entirely, and a zero fillet radius
makes it agree with the pipeline whose fillet step is omitted entirely;
in particular no kernel chamfer (resp. fillet) call is made in the zero
case. -/
theorem claim_C4_zero_noop {S E : Type} (K : Kernel S E)
    (hK : ∀ s : S, K.edgesGroupByZ s ≠ []) (spec : Part2Spec)
    (_hv : spec.Valid) :
    (spec.chamfer_distance = 0 →
      make_part2 K spec = pipelineWithoutChamfer K spec) ∧
    (spec.fillet_radius = 0 →
      make_part2 K spec = pipelineWithoutFillet K spec) := by
  constructor
  · intro hc
    unfold make_part2 pipelineWithoutChamfer
    dsimp only
    rw [hc]
    simp only [lt_irrefl, false_and, if_false]
    cases hgs : K.edgesGroupByZ
        (K.cut (K.fuse K.emptyPart
            (K.box spec.length spec.width spec.thickness))
          (K.cylinder (spec.hole_diameter / 2) spec.thickness)) with
    | nil => simp
    | cons a as => simp
  · intro hf
    unfold make_part2 pipelineWithoutFillet
    dsimp only
    rw [hf]
    simp only [lt_irrefl, false_and, if_false]
    cases hgs : K.edgesGroupByZ
        (K.cut (K.fuse K.emptyPart
            (K.box spec.length spec.width spec.thickness))
          (K.cylinder (spec.hole_diameter / 2) spec.thickness)) with
    | nil => simp
    | cons a as =>
      simp only [List.head?_cons]
      cases hys : (K.edgesGroupByZ
          (if 0 < spec.chamfer_distance ∧ a ≠ [] then
            K.chamfer a spec.chamfer_distance
          else
            K.cut (K.fuse K.emptyPart
                (K.box spec.length spec.width spec.thickness))
              (K.cylinder (spec.hole_diameter / 2) spec.thickness))).getLast?
          with
      | none => exact absurd (List.getLast?_eq_none_iff.mp hys) (hK _)
      | some y => simp

/-- Witness for C4: a valid spec with both the chamfer distance and the
fillet radius zero, over the free kernel, whose edge-group query always
returns two groups. -/
theorem claim_C4_zero_noop_witness :
    (∀ s : FSolid, freeKernel.edgesGroupByZ s ≠ []) ∧
      Part2Spec.Valid
        ({ chamfer_distance := 0, fillet_radius := 0 } : Part2Spec) ∧
      ({ chamfer_distance := 0, fillet_radius := 0 } : Part2Spec).chamfer_distance = 0 ∧
      make_part2 freeKernel
          ({ chamfer_distance := 0, fillet_radius := 0 } : Part2Spec) =
        pipelineWithoutChamfer freeKernel
          ({ chamfer_distance := 0, fillet_radius := 0 } : Part2Spec) ∧
      make_part2 freeKernel
          ({ chamfer_distance := 0, fillet_radius := 0 } : Part2Spec) =
        pipelineWithoutFillet freeKernel
          ({ chamfer_distance := 0, fillet_radius := 0 } : Part2Spec) :=
  ⟨freeKernel_groups_ne, by decide, by decide,
    (claim_C4_zero_noop freeKernel freeKernel_groups_ne _ (by decide)).1 rfl,
    (claim_C4_zero_noop freeKernel freeKernel_groups_ne _ (by decide)).2 rfl⟩

/-- Claim C5: the build pipeline is deterministic — for any kernel, two
specs with identical field values produce identical builder output. -/
theorem claim_C5_deterministic {S E : Type} (K : Kernel S E)
    (s1 s2 : Part2Spec) (_hv : s1.Valid)
    (h : s1.length = s2.length ∧ s1.width = s2.width ∧
      s1.thickness = s2.thickness ∧ s1.hole_diameter = s2.hole_diameter ∧
      s1.chamfer_distance = s2.chamfer_distance ∧
      s1.fillet_radius = s2.fillet_radius) :
    make_part2 K s1 = make_part2 K s2 := by
  obtain ⟨h1, h2, h3, h4, h5, h6⟩ := h
  have hs : s1 = s2 := by
    cases s1
    cases s2
    simp_all
  rw [hs]

/-- Witness for C5: two separately written default specs over the free
kernel. -/
theorem claim_C5_deterministic_witness :
    Part2Spec.Valid ({} : Part2Spec) ∧
      make_part2 freeKernel ({} : Part2Spec) =
        make_part2 freeKernel
          ({ length := 80, width := 60, thickness := 10,
             hole_diameter := 22, chamfer_distance := 2,
             fillet_radius := 5 } : Part2Spec) :=
  ⟨by decide,
    claim_C5_deterministic freeKernel {} _ (by decide)
      ⟨rfl, rfl, rfl, rfl, rfl, rfl⟩⟩

/-- Claim C6: the hole-diameter upper bound is strict — with all other
constraints satisfied, `hole_diameter = min length width` is rejected
with the hole-diameter error, while any `hole_diameter` strictly between
`0` and `min length width` is accepted. -/
theorem claim_C6_strict_bound (l w t c f : ℚ)
    (hl : 0 < l) (hw : 0 < w) (ht : 0 < t) (hc : 0 ≤ c) (hf : 0 ≤ f) :
    Part2Spec.create l w t (min l w) c f = Except.error
        "hole_diameter must be positive and smaller than plate dimensions" ∧
      ∀ h : ℚ, 0 < h → h < min l w →
        Part2Spec.create l w t h c f = Except.ok ⟨l, w, t, h, c, f⟩ := by
  constructor
  · have hmin : ¬ (0 < min l w ∧ min l w < min l w) :=
      fun hx => lt_irrefl _ hx.2
    unfold Part2Spec.create Part2Spec.validate
    dsimp only
    split_ifs <;> first | rfl | tauto
  · intro h h1 h2
    exact (create_ok_iff l w t h c f _).mpr
      ⟨⟨hl, hw, ht, ⟨h1, h2⟩, hc, hf⟩, rfl⟩

/-- Witness for C6 at the default plate dimensions: hole diameter `60`
(the minimum of `80` and `60`) is rejected, hole diameter `22` is
accepted. -/
theorem claim_C6_strict_bound_witness :
    (0 < (80 : ℚ) ∧ 0 < (60 : ℚ) ∧ 0 < (10 : ℚ) ∧ 0 ≤ (2 : ℚ) ∧
        0 ≤ (5 : ℚ) ∧ 0 < (22 : ℚ) ∧ (22 : ℚ) < min 80 60) ∧
      Part2Spec.create 80 60 10 (min 80 60) 2 5 = Except.error
        "hole_diameter must be positive and smaller than plate dimensions" ∧
      Part2Spec.create 80 60 10 22 2 5 =
        Except.ok ⟨80, 60, 10, 22, 2, 5⟩ :=
  ⟨by decide,
    (claim_C6_strict_bound 80 60 10 2 5 (by decide) (by decide) (by decide)
        (by decide) (by decide)).1,
    (claim_C6_strict_bound 80 60 10 2 5 (by decide) (by decide) (by decide)
        (by decide) (by decide)).2 22 (by decide) (by decide)⟩

/-- Claim C7: when all six constraints hold, construction succeeds and
the record reproduces the inputs exactly; when some constraint fails,
construction fails with an error message that names a violated field. -/
theorem claim_C7_create_correct (l w t h c f : ℚ) :
    (Part2Spec.Valid ⟨l, w, t, h, c, f⟩ →
      Part2Spec.create l w t h c f = Except.ok ⟨l, w, t, h, c, f⟩) ∧
    (¬ Part2Spec.Valid ⟨l, w, t, h, c, f⟩ →
      ∃ m, Part2Spec.create l w t h c f = Except.error m ∧
        violatedNamed l w t h c f m) := by
  constructor
  · intro hv
    exact (create_ok_iff l w t h c f _).mpr ⟨hv, rfl⟩
  · intro hnv
    by_cases h1 : 0 < l
    case neg =>
      refine ⟨_, ?_, Or.inl ⟨rfl, h1⟩⟩
      unfold Part2Spec.create Part2Spec.validate
      dsimp only
      split_ifs <;> first | rfl | tauto
    by_cases h2 : 0 < w
    case neg =>
      refine ⟨_, ?_, Or.inr (Or.inl ⟨rfl, h2⟩)⟩
      unfold Part2Spec.create Part2Spec.validate
      dsimp only
      split_ifs <;> first | rfl | tauto
    by_cases h3 : 0 < t
    case neg =>
      refine ⟨_, ?_, Or.inr (Or.inr (Or.inl ⟨rfl, h3⟩))⟩
      unfold Part2Spec.create Part2Spec.validate
      dsimp only
      split_ifs <;> first | rfl | tauto
    by_cases h4 : 0 < h ∧ h < min l w
    case neg =>
      refine ⟨_, ?_, Or.inr (Or.inr (Or.inr (Or.inl ⟨rfl, h4⟩)))⟩
      unfold Part2Spec.create Part2Spec.validate
      dsimp only
      split_ifs <;> first | rfl | tauto
    by_cases h5 : 0 ≤ c
    case neg =>
      refine ⟨_, ?_,
        Or.inr (Or.inr (Or.inr (Or.inr (Or.inl ⟨rfl, h5⟩))))⟩
      unfold Part2Spec.create Part2Spec.validate
      dsimp only
      split_ifs <;> first | rfl | tauto
    by_cases h6 : 0 ≤ f
    case neg =>
      refine ⟨_, ?_,
        Or.inr (Or.inr (Or.inr (Or.inr (Or.inr ⟨rfl, h6⟩))))⟩
      unfold Part2Spec.create Part2Spec.validate
      dsimp only
      split_ifs <;> first | rfl | tauto
    exact absurd ⟨h1, h2, h3, h4, h5, h6⟩ hnv

/-- Witness for C7: the default inputs are valid and reproduce
themselves. -/
theorem claim_C7_create_correct_witness :
    Part2Spec.Valid ⟨80, 60, 10, 22, 2, 5⟩ ∧
      Part2Spec.create 80 60 10 22 2 5 =
        Except.ok ⟨80, 60, 10, 22, 2, 5⟩ :=
  ⟨by decide, (claim_C7_create_correct 80 60 10 22 2 5).1 (by decide)⟩

/-- Claim C8: with the other dimension constraints holding, a
non-positive hole diameter makes the whole build flow fail during
validation with the hole-diameter error; the builder — the only code
issuing kernel calls — is applied under `Except.map` only to a
successfully constructed spec, so no kernel operation is invoked. -/
theorem claim_C8_no_kernel_call {S E : Type} (K : Kernel S E)
    (l w t h c f : ℚ) (hl : 0 < l) (hw : 0 < w) (ht : 0 < t)
    (hh : h ≤ 0) :
    buildPart2 K l w t h c f = Except.error
      "hole_diameter must be positive and smaller than plate dimensions" := by
  have hno : ¬ (0 < h ∧ h < min l w) := fun hx => absurd hx.1 (not_lt.mpr hh)
  unfold buildPart2 Part2Spec.create Part2Spec.validate
  dsimp only
  split_ifs <;> first | rfl | tauto

/-- Witness for C8: hole diameter zero with the default plate dimensions
fails validation over the free kernel. -/
theorem claim_C8_no_kernel_call_witness :
    (0 < (80 : ℚ) ∧ 0 < (60 : ℚ) ∧ 0 < (10 : ℚ) ∧ (0 : ℚ) ≤ 0) ∧
      buildPart2 freeKernel 80 60 10 0 2 5 = Except.error
        "hole_diameter must be positive and smaller than plate dimensions" :=
  ⟨by decide,
    claim_C8_no_kernel_call freeKernel 80 60 10 0 2 5 (by decide) (by decide)
      (by decide) (by decide)⟩

/-- Claim C9: the builder never mutates its spec argument — threading the
spec through the builder as explicit state returns it unchanged on every
path, while computing the same solid as `make_part2`. -/
theorem claim_C9_spec_frame {S E : Type} (K : Kernel S E)
    (spec : Part2Spec) :
    (make_part2F K spec).2 = spec ∧
      (make_part2F K spec).1 = make_part2 K spec :=
  ⟨make_part2F_snd K spec, make_part2F_fst K spec⟩

/-- Claim C10: the default field values of the dataclass satisfy every
validation constraint, so the no-argument construction `Part2Spec()`
succeeds and the entry-point build cannot fail validation. -/
theorem claim_C10_defaults_valid :
    Part2Spec.create 80 60 10 22 2 5 = Except.ok ({} : Part2Spec) ∧
      Part2Spec.Valid ({} : Part2Spec) ∧
      ({} : Part2Spec) =
        ⟨80, 60, 10, 22, 2, 5⟩ := by
  refine ⟨rfl, by decide, rfl⟩

end FlowcellManifold
